import Mathlib

/-!
Shallow embedding of the hetzner-api-client repository.

The repository contains two generations of the API client:

* a closure-based client (src/index.js): `Robot = function(config)` holding
  private maps `_customServers` (server name to IP) and `_customStorageBoxes`
  (storageBox name to ID), with `registerServer(serverName, ipAddress)`,
  `unregisterServer(serverName)` and a pair of `Proxy` objects
  (`this.server`, `this.storageBox`) whose get traps forward method calls,
  looking the bound key up in the private map at call time;

* a class-based client (final third of src/unnamed/part_003):
  `class Robot` with a `_createRequest(method, uri, data)` helper, a
  `_parseResponse(response, statusCode, resolve, reject)` result
  normaliser, and, attached after the class body,
  `Robot.prototype.registerServer(ipAddress)` /
  `Robot.prototype.registerStorageBox(id)` which keep per-client `Map`s
  inside module-level `WeakMap`s (`ServerCache`, `StorageBoxCache`) and
  return identity-cached `IdentifiedServer` / `IdentifiedStorageBox`
  handles; forwarding methods are stamped onto the handle prototypes by
  iterating over `Object.getOwnPropertyNames(Robot.prototype)` and
  prepending the bound key to the argument list.

Both are embedded below.  JavaScript values are modelled two-level: a
primitive layer and a value layer whose arrays and objects hold
primitives (the code never nests objects deeper).  Machine-level details
(prototype chains, `this` binding) are collapsed into explicit state
passing; promised results are modelled by the request value an operation
issues (`Except err Request`: an `ok` carries the single HTTP request the
call sends, an `error` means the call threw synchronously and no request
was made).
-/

/-- Primitive JavaScript values. -/
inductive JsPrim where
  | undefined
  | null
  | bool (b : Bool)
  | num (n : Int)
  | str (s : String)
deriving Repr, DecidableEq

/-- JavaScript values as used by this code base: a primitive, an array of
primitives, or an object whose fields hold primitives. -/
inductive JsValue where
  | prim (p : JsPrim)
  | arr (elems : List JsPrim)
  | obj (fields : List (String × JsPrim))
deriving Repr, DecidableEq

/-- Shorthand for the JavaScript `undefined` value. -/
def jsUndefined : JsValue := .prim .undefined

/-- Shorthand for a JavaScript string value. -/
def jsStr (s : String) : JsValue := .prim (.str s)

/-- Shorthand for a JavaScript number value (integers only; the code never
uses fractional numbers). -/
def jsNum (n : Int) : JsValue := .prim (.num n)

/-- String coercion of a primitive, as performed by the `+` operator. -/
def JsPrim.toJsString : JsPrim → String
  | .undefined => "undefined"
  | .null => "null"
  | .bool b => if b then "true" else "false"
  | .num n => toString n
  | .str s => s

/-- String coercion of a value, as performed by the `+` operator
(arrays join their elements with commas, objects stringify generically). -/
def JsValue.toJsString : JsValue → String
  | .prim p => p.toJsString
  | .arr xs => String.intercalate "," (xs.map JsPrim.toJsString)
  | .obj _ => "[object Object]"

/-- Truthiness of a primitive (JavaScript `if` / `||` semantics). -/
def JsPrim.truthy : JsPrim → Bool
  | .undefined => false
  | .null => false
  | .bool b => b
  | .num n => n != 0
  | .str s => s ≠ ""

/-- Truthiness of a value: arrays and objects are always truthy. -/
def JsValue.truthy : JsValue → Bool
  | .prim p => p.truthy
  | .arr _ => true
  | .obj _ => true

/-- The JavaScript `a || b` default operator on values. -/
def jsOr (a b : JsValue) : JsValue := if a.truthy then a else b

/-- Reading the `length` property: strings and arrays have one, other
values yield `undefined` (modelled as `none`). -/
def JsValue.lengthProp : JsValue → Option Nat
  | .prim (.str s) => some s.length
  | .arr xs => some xs.length
  | _ => none

/-- Property read `v[name]` for the object fields this code uses; absent
fields and non-object receivers (other than `undefined` and `null`, whose
member access throws and is handled at each use site) read as `undefined`. -/
def JsValue.getField (v : JsValue) (name : String) : JsValue :=
  match v with
  | .obj fields =>
      match fields.lookup name with
      | some p => .prim p
      | none => jsUndefined
  | _ => jsUndefined

/-- The `hasOwnProperty(name)` test; `true` only for objects that carry
the field.  Receivers `undefined` and `null` throw a TypeError, which the
call sites model explicitly. -/
def JsValue.hasOwnProp (v : JsValue) (name : String) : Bool :=
  match v with
  | .obj fields => (fields.lookup name).isSome
  | _ => false

/-- Synchronous JavaScript failures: `new Error(message)` thrown by the
code, or an engine TypeError (member access on undefined, calling a
non-function). -/
inductive JsError where
  | error (msg : String)
  | typeError (msg : String)
deriving Repr, DecidableEq

/-- One outbound HTTP request as assembled by `_createRequest` of the
class-based client: method, full URL (base URL plus URI), the
content-type header it sets, and the optional data payload. -/
structure Request where
  method : String
  url : String
  contentType : String
  data : Option (List (String × JsValue))
deriving Repr, DecidableEq

/-- The class-based client instance after construction: the three config
fields the constructor establishes (`this.config`). -/
structure RobotInstance where
  username : JsValue
  password : JsValue
  baseUrl : JsValue
deriving Repr, DecidableEq

/-- The production URL the constructor falls back to when the config has
no `baseUrl` field. -/
def productionUrl : String := "https://robot-ws.your-server.de"

/-- The `length === 0` test performed on `config.username` and
`config.password`: member access on `undefined` or `null` throws; values
without a length property compare `undefined === 0`, which is false. -/
def credentialLengthZero (v : JsValue) : Except JsError Bool :=
  match v with
  | .prim .undefined => .error (.typeError "Cannot read properties of undefined")
  | .prim .null => .error (.typeError "Cannot read properties of null")
  | v =>
      match v.lengthProp with
      | some n => .ok (n == 0)
      | none => .ok false

/-- The `class Robot` constructor (part_003, lines 2405 to 2453): rejects a
missing config object, a missing or empty username (the
`!config.hasOwnProperty("username") || config.username.length === 0`
check), a missing or empty password, and defaults `baseUrl` to the
production URL when the field is absent. -/
def robotNew (config : JsValue) : Except JsError RobotInstance :=
  if config = jsUndefined then .error (.error "Missing configuration data")
  else if !config.hasOwnProp "username" then .error (.error "Missing API username")
  else match credentialLengthZero (config.getField "username") with
  | .error e => .error e
  | .ok true => .error (.error "Missing API username")
  | .ok false =>
    if !config.hasOwnProp "password" then .error (.error "Missing API password")
    else match credentialLengthZero (config.getField "password") with
    | .error e => .error e
    | .ok true => .error (.error "Missing API password")
    | .ok false =>
      .ok { username := config.getField "username",
            password := config.getField "password",
            baseUrl :=
              if config.hasOwnProp "baseUrl" then config.getField "baseUrl"
              else jsStr productionUrl }

/-- The `_createRequest(method, uri, data)` helper of the class-based
client: prepends the configured base URL, chooses the content type by
method, and issues exactly one request. -/
def createRequest (inst : RobotInstance) (method uri : String)
    (data : Option (List (String × JsValue))) : Request :=
  { method := method,
    url := inst.baseUrl.toJsString ++ uri,
    contentType :=
      if method = "post" then "application/x-www-form-urlencoded" else "application/json",
    data := data }

/-- Argument access inside a JavaScript function body: parameters beyond
the supplied argument list read as `undefined`. -/
def argAt (args : List JsValue) (i : Nat) : JsValue := args.getD i jsUndefined

/-- The `options.hasOwnProperty(name)` step of the boot-configuration
methods: throws a TypeError when `options` is `undefined` or `null`,
otherwise tests field presence. -/
def optionsHasOwn (options : JsValue) (name : String) : Except JsError Bool :=
  match options with
  | .prim .undefined => .error (.typeError "Cannot read properties of undefined")
  | .prim .null => .error (.typeError "Cannot read properties of null")
  | v => .ok (v.hasOwnProp name)

/-- Names of the class-based Robot endpoint methods embedded here (a
representative subset of the roughly forty wrappers in the source; each
modelled method follows its source body exactly). -/
def robotOpNames : List String :=
  ["queryServers", "queryServer", "queryWol", "updateServerName", "resetServer",
   "wakeServer", "enableRescueBoot", "enableLinuxBoot", "queryStorageBoxes",
   "queryStorageBox", "updateStorageBoxName", "queryStorageBoxSnapshots",
   "createStorageBoxSnapshot", "removeStorageBoxSnapshot"]

/-- Dispatch of the class-based Robot endpoint methods.  Each arm mirrors
the corresponding method body from part_003: the `typeof x === "undefined"`
guards throw `new Error(...)` synchronously, then `_createRequest` is
called with the literal URI concatenation and data object of the source.
An `ok` result is the single request issued; an `error` result means the
method threw and no request was made. -/
def robotInvoke (inst : RobotInstance) (method : String) (args : List JsValue) :
    Except JsError Request :=
  match method with
  | "queryServers" =>
      .ok (createRequest inst "get" "/server" none)
  | "queryServer" =>
      let ip := argAt args 0
      if ip = jsUndefined then .error (.error "Server IP is missing.")
      else .ok (createRequest inst "get" ("/server/" ++ ip.toJsString) none)
  | "queryWol" =>
      let ip := argAt args 0
      if ip = jsUndefined then .error (.error "Server IP is missing.")
      else .ok (createRequest inst "get" ("/wol/" ++ ip.toJsString) none)
  | "updateServerName" =>
      let ip := argAt args 0
      let newName := argAt args 1
      if ip = jsUndefined then .error (.error "Server IP is missing.")
      else if newName = jsUndefined then .error (.error "New server name is missing.")
      else .ok (createRequest inst "post" ("/server/" ++ ip.toJsString)
        (some [("server_name", newName)]))
  | "resetServer" =>
      let ip := argAt args 0
      if ip = jsUndefined then .error (.error "Server IP is missing.")
      else
        let resetType := jsOr (argAt args 1) (jsStr "sw")
        .ok (createRequest inst "post" ("/reset/" ++ ip.toJsString)
          (some [("type", resetType)]))
  | "wakeServer" =>
      let ip := argAt args 0
      if ip = jsUndefined then .error (.error "Server IP is missing.")
      else .ok (createRequest inst "post" ("/wol/" ++ ip.toJsString)
        (some [("server_ip", ip)]))
  | "enableRescueBoot" =>
      let ip := argAt args 0
      if ip = jsUndefined then .error (.error "Server IP is missing.")
      else if argAt args 1 = jsUndefined then .error (.error "Operating system is missing.")
      else
        let arch := jsOr (argAt args 2) (jsNum 64)
        let keys := jsOr (argAt args 3) (.arr [])
        .ok (createRequest inst "post" ("/boot/" ++ ip.toJsString ++ "/rescue")
          (some [("os", argAt args 1), ("arch", arch), ("authorized_key", keys)]))
  | "enableLinuxBoot" =>
      let ip := argAt args 0
      if ip = jsUndefined then .error (.error "Server IP is missing.")
      else do
        let options := argAt args 1
        if !(← optionsHasOwn options "distribution") then
          throw (.error "Installation distribution is missing.")
        return createRequest inst "post" ("/boot/" ++ ip.toJsString ++ "/linux")
          (some [("dist", options.getField "distribution"),
                 ("arch", jsOr (options.getField "architecture") (jsNum 64)),
                 ("lang", jsOr (options.getField "language") (jsStr "en")),
                 ("authorized_key", jsOr (options.getField "keys") (.arr []))])
  | "queryStorageBoxes" =>
      let id := argAt args 0
      let uri := "/storagebox" ++ (if id = jsUndefined then "" else "/" ++ id.toJsString)
      .ok (createRequest inst "get" uri none)
  | "queryStorageBox" =>
      -- wrapper: this.queryStorageBoxes(storageBoxId)
      let id := argAt args 0
      let uri := "/storagebox" ++ (if id = jsUndefined then "" else "/" ++ id.toJsString)
      .ok (createRequest inst "get" uri none)
  | "updateStorageBoxName" =>
      let id := argAt args 0
      let newName := argAt args 1
      if id = jsUndefined then .error (.error "StorageBox ID is missing.")
      else if newName = jsUndefined then .error (.error "New storageBox name is missing.")
      else .ok (createRequest inst "post" ("/storagebox/" ++ id.toJsString)
        (some [("storagebox_name", newName)]))
  | "queryStorageBoxSnapshots" =>
      let id := argAt args 0
      if id = jsUndefined then .error (.error "StorageBox ID is missing.")
      else .ok (createRequest inst "get" ("/storagebox/" ++ id.toJsString ++ "/snapshot") none)
  | "createStorageBoxSnapshot" =>
      let id := argAt args 0
      if id = jsUndefined then .error (.error "StorageBox ID is missing.")
      else .ok (createRequest inst "post" ("/storagebox/" ++ id.toJsString ++ "/snapshot") none)
  | "removeStorageBoxSnapshot" =>
      let id := argAt args 0
      let snapshotName := argAt args 1
      if id = jsUndefined then .error (.error "StorageBox ID is missing.")
      else if snapshotName = jsUndefined then .error (.error "Snapshot name is missing.")
      else .ok (createRequest inst "delete"
        ("/storagebox/" ++ id.toJsString ++ "/snapshot/" ++ snapshotName.toJsString) none)
  | other =>
      -- names outside the modelled method table are not part of the model
      .error (.typeError ("this." ++ other ++ " is not a function"))

/-- A parsed response body: one nesting level deeper than `JsValue`, so
that the JSON error envelope `error: (status, code, message)` can sit as
an object-valued field inside the response object. -/
inductive JsDeepValue where
  | prim (p : JsPrim)
  | arr (elems : List JsPrim)
  | obj (fields : List (String × JsValue))
deriving Repr, DecidableEq

/-- Property read on a response body; absent fields and non-object
receivers read as `undefined`. -/
def JsDeepValue.getField (v : JsDeepValue) (name : String) : JsValue :=
  match v with
  | .obj fields =>
      match fields.lookup name with
      | some p => p
      | none => jsUndefined
  | _ => jsUndefined

/-- Outcome of a settled pending result: the promise either resolves
with the parsed response, or rejects with the formatted error-envelope
string, or rejects with the raw response when the envelope is unusable,
or rejects with a transport error (the `.on("error", reject)` handler of
`_createRequest`). -/
inductive ParseOutcome where
  | resolved (v : JsDeepValue)
  | rejectedMsg (s : String)
  | rejectedRaw (v : JsDeepValue)
  | rejectedTransport (e : String)
deriving Repr, DecidableEq

/-- The `_parseResponse(response, statusCode, resolve, reject)` of the
class-based client (part_003, lines 2469 to 2491): status 200 or 201
resolves with the response; any other status rejects with
`error.code + ": " + error.message` (ANSI colouring by the colors
library omitted), falling back to rejecting with the raw response when
reading the envelope throws a TypeError, which happens exactly when the
`error` field is `undefined` or `null`. -/
def parseResponse (response : JsDeepValue) (statusCode : Int) : ParseOutcome :=
  if statusCode = 200 ∨ statusCode = 201 then
    .resolved response
  else
    match response.getField "error" with
    | .prim .undefined => .rejectedRaw response
    | .prim .null => .rejectedRaw response
    | e => .rejectedMsg ((e.getField "code").toJsString ++ ": " ++
        (e.getField "message").toJsString)

/-- What the network layer hands back for one issued request: either an
HTTP response (body plus status code) or a transport-level error event. -/
inductive TransportOutcome where
  | response (body : JsDeepValue) (statusCode : Int)
  | transportError (e : String)
deriving Repr, DecidableEq

/-- How the promise created by `_createRequest` settles: responses run
through `_parseResponse`; error events reject the promise directly. -/
def settle : TransportOutcome → ParseOutcome
  | .response body statusCode => parseResponse body statusCode
  | .transportError e => .rejectedTransport e

/-- The success test on a settled outcome: only a resolved promise is a
success. -/
def ParseOutcome.isSuccess : ParseOutcome → Bool
  | .resolved _ => true
  | _ => false

/-- The error-envelope availability condition of `_parseResponse`: the
rejection is built from `error.code` and `error.message` exactly when
reading them does not throw, i.e. when the `error` field is neither
`undefined` nor `null`. -/
def envelopeAvailable (response : JsDeepValue) : Bool :=
  match response.getField "error" with
  | .prim .undefined => false
  | .prim .null => false
  | _ => true

/-- Set or replace the binding for a key in an association list (the
semantics of `Map.prototype.set` and of JavaScript property assignment). -/
def assocSet {α β : Type} [DecidableEq α] (key : α) (val : β) :
    List (α × β) → List (α × β)
  | [] => [(key, val)]
  | (k, v) :: rest =>
      if k = key then (key, val) :: rest else (k, v) :: assocSet key val rest

/-- Remove the binding for a key from an association list (the semantics
of the `delete` operator on the private registry objects). -/
def assocDelete {α β : Type} [DecidableEq α] (key : α) :
    List (α × β) → List (α × β)
  | [] => []
  | (k, v) :: rest =>
      if k = key then rest else (k, v) :: assocDelete key rest

/-- Binding kinds of the registered-instance mechanism: a server is bound
to an IP address, a storageBox to an ID. -/
inductive BindingKind where
  | server
  | storageBox
deriving Repr, DecidableEq

/-- The fields stored inside an `IdentifiedServer` or
`IdentifiedStorageBox` handle: the owning client and the bound key
(`identifiedServerInstance` and `ipAddress`, respectively
`IdentifiedStorageBoxInstance` and `id`). -/
structure HandleInfo where
  kind : BindingKind
  client : Nat
  key : JsValue
deriving Repr, DecidableEq

/-- Global state of the class-based registered-instance mechanism:
`serverCache` and `storageBoxCache` model the module-level WeakMaps
(client identity to a Map from key to handle), `handles` records the
fields of every allocated handle, and `handleProps` records mutable
properties callers attach to a handle.  Handles are identified by the
allocation counter `nextId`, so two lookups return the same object
reference exactly when they return the same identifier. -/
structure RegistryState where
  nextId : Nat
  serverCache : List (Nat × List (JsValue × Nat))
  storageBoxCache : List (Nat × List (JsValue × Nat))
  handles : List (Nat × HandleInfo)
  handleProps : List (Nat × List (String × JsValue))
deriving Repr, DecidableEq

/-- The empty registry state (no client has registered anything yet). -/
def RegistryState.init : RegistryState :=
  { nextId := 0, serverCache := [], storageBoxCache := [], handles := [], handleProps := [] }

/-- The guard of `Robot.prototype.registerServer`:
`typeof ipAddress === "undefined" || ipAddress.length < 7`.  A value
without a length property compares `undefined < 7`, which is false. -/
def serverKeyRejected (ip : JsValue) : Bool :=
  ip = jsUndefined ||
    (match ip.lengthProp with
     | some n => n < 7
     | none => false)

/-- The guard of `Robot.prototype.registerStorageBox`:
`typeof id === "undefined" || id.length === 0`.  Numbers have no length
property, so `undefined === 0` is false and every number passes. -/
def storageBoxKeyRejected (id : JsValue) : Bool :=
  id = jsUndefined ||
    (match id.lengthProp with
     | some n => n = 0
     | none => false)

/-- The `Robot.prototype.registerServer(ipAddress)` of part_003 (lines
3672 to 3683): after the key guard, fetch (creating lazily) the Map for
this client inside the `ServerCache` WeakMap; create and store a new
`IdentifiedServer` only when `thisCache.get(ipAddress)` is not already a
handle (handles are objects, hence always truthy); return
`thisCache.get(ipAddress)`. -/
def registerServer (st : RegistryState) (c : Nat) (ip : JsValue) :
    Except JsError (Nat × RegistryState) :=
  if serverKeyRejected ip then .error (.error "Missing IP address")
  else
    let cache := (st.serverCache.lookup c).getD []
    match cache.lookup ip with
    | some h => .ok (h, st)
    | none =>
        let h := st.nextId
        .ok (h, { st with
          nextId := st.nextId + 1,
          serverCache := assocSet c (assocSet ip h cache) st.serverCache,
          handles := (h, ⟨.server, c, ip⟩) :: st.handles })

/-- The `Robot.prototype.registerStorageBox(id)` of part_003 (lines 3740
to 3751), structured exactly like `registerServer` over the
`StorageBoxCache` WeakMap. -/
def registerStorageBox (st : RegistryState) (c : Nat) (id : JsValue) :
    Except JsError (Nat × RegistryState) :=
  if storageBoxKeyRejected id then .error (.error "Missing storageBox ID")
  else
    let cache := (st.storageBoxCache.lookup c).getD []
    match cache.lookup id with
    | some h => .ok (h, st)
    | none =>
        let h := st.nextId
        .ok (h, { st with
          nextId := st.nextId + 1,
          storageBoxCache := assocSet c (assocSet id h cache) st.storageBoxCache,
          handles := (h, ⟨.storageBox, c, id⟩) :: st.handles })

/-- Look a server registration up in the per-client map (the
`thisCache.get(ipAddress)` read path). -/
def lookupServer (st : RegistryState) (c : Nat) (ip : JsValue) : Option Nat :=
  ((st.serverCache.lookup c).getD []).lookup ip

/-- Look a storageBox registration up in the per-client map. -/
def lookupStorageBox (st : RegistryState) (c : Nat) (id : JsValue) : Option Nat :=
  ((st.storageBoxCache.lookup c).getD []).lookup id

/-- Attach a mutable property to a handle (plain JavaScript property
assignment on the handle object, as the test suite does with
`firstInstanceOfMyServer.testProperty = 123`). -/
def setHandleProp (st : RegistryState) (h : Nat) (name : String) (v : JsValue) :
    RegistryState :=
  { st with handleProps :=
      assocSet h (assocSet name v ((st.handleProps.lookup h).getD [])) st.handleProps }

/-- Read a property back from a handle. -/
def getHandleProp (st : RegistryState) (h : Nat) (name : String) : Option JsValue :=
  ((st.handleProps.lookup h).getD []).lookup name

/-- Invoke a method on an `IdentifiedServer` handle.  The forwarding
methods are stamped onto `IdentifiedServer.prototype` for every function
on `Robot.prototype` except `registerServer` and `registerStorageBox`;
each forwarder calls the underlying client method with the bound
`ipAddress` prepended to the caller arguments.  A name without a
forwarder reads as `undefined` on the handle and calling it throws a
TypeError. -/
def identifiedServerInvoke (inst : RobotInstance) (ip : JsValue) (m : String)
    (args : List JsValue) : Except JsError Request :=
  if m ∈ robotOpNames then robotInvoke inst m (ip :: args)
  else .error (.typeError ("handle." ++ m ++ " is not a function"))

/-- Invoke a method on an `IdentifiedStorageBox` handle; the forwarding
loop is identical, prepending the bound `id`. -/
def identifiedStorageBoxInvoke (inst : RobotInstance) (id : JsValue) (m : String)
    (args : List JsValue) : Except JsError Request :=
  if m ∈ robotOpNames then robotInvoke inst m (id :: args)
  else .error (.typeError ("handle." ++ m ++ " is not a function"))

/-- State of one closure-based client (src/index.js): the private
`_customServers` object mapping registered server names to IP address
values, `_customStorageBoxes` mapping storageBox names to ID values, and
the base URL captured from the config (defaulted, in this draft, to the
production URL with a trailing slash). -/
structure ClosureClient where
  baseUrl : JsValue
  customServers : List (String × JsValue)
  customStorageBoxes : List (String × JsValue)
deriving Repr, DecidableEq

/-- The own properties of a closure-based client instance that this
embedding models: the two proxy objects, the registration management
functions, and a representative subset of the endpoint methods.  The
inner proxy get trap tests exactly `_self.hasOwnProperty(methodName)`
against this set. -/
def closureOwnPropNames : List String :=
  ["server", "storageBox", "registerServer", "unregisterServer",
   "registerStorageBox", "unregisterStorageBox",
   "queryServers", "queryServer", "setServerName", "resetServer", "wakeServer",
   "queryStorageBoxes", "updateStorageBoxName"]

/-- What a closure-client member call produces when it does not throw:
an issued HTTP request (the promise-returning endpoint methods), a bound
handle (`registerServer` returns `this.server[serverName]`), the
`undefined` return of the unregister functions, or a plain `undefined`
when a lookup misses. -/
inductive ClosureResult where
  | request (r : Request)
  | handle (name : Option String)
  | unit
deriving Repr, DecidableEq

/-- The `registerServer(serverName, ipAddress)` of src/index.js (lines
217 to 229): rejects an undefined name, rejects a name already present in
`_customServers`, stores the name-to-IP binding, and returns
`this.server[serverName]`, a fresh proxy handle bound to the name. -/
def closureRegisterServer (c : ClosureClient) (serverName ipAddress : JsValue) :
    Except JsError (ClosureResult × ClosureClient) :=
  if serverName = jsUndefined then .error (.error "No server name given.")
  else
    let key := serverName.toJsString
    if (c.customServers.lookup key).isSome then
      .error (.error ("The server " ++ key ++ " is already registered in this instance."))
    else
      .ok (.handle (some key),
        { c with customServers := assocSet key ipAddress c.customServers })

/-- The `unregisterServer(serverName)` of src/index.js (lines 239 to
249): rejects an undefined name or an unregistered name, then deletes
the registry entry.  The handle objects callers hold are untouched. -/
def closureUnregisterServer (c : ClosureClient) (serverName : JsValue) :
    Except JsError (ClosureResult × ClosureClient) :=
  if serverName = jsUndefined then .error (.error "No server name given.")
  else
    let key := serverName.toJsString
    if (c.customServers.lookup key).isNone then
      .error (.error ("The server " ++ key ++ " is not registered in this instance yet."))
    else
      .ok (.unit, { c with customServers := assocDelete key c.customServers })

/-- Build a request of the closure-based client draft, which sets no
content-type header (modelled as the empty string). -/
def closureRequest (method url : String) (data : Option (List (String × JsValue))) :
    Request :=
  { method := method, url := url, contentType := "", data := data }

/-- Dispatch of closure-client members by name with explicit arguments
(the `_self[methodName].apply(_self, args)` step).  Endpoint arms mirror
the src/index.js method bodies (URL concatenations use the configured
base URL directly, with no leading slash on the path, and no content
type header is set in this draft).  The non-function own properties
`server` and `storageBox` cannot be applied and throw a TypeError. -/
def closureCall (c : ClosureClient) (m : String) (args : List JsValue) :
    Except JsError (ClosureResult × ClosureClient) :=
  match m with
  | "server" => .error (.typeError "_self.server.apply is not a function")
  | "storageBox" => .error (.typeError "_self.storageBox.apply is not a function")
  | "registerServer" => closureRegisterServer c (argAt args 0) (argAt args 1)
  | "unregisterServer" => closureUnregisterServer c (argAt args 0)
  | "registerStorageBox" =>
      if argAt args 0 = jsUndefined then .error (.error "No storageBox name given.")
      else
        let key := (argAt args 0).toJsString
        if (c.customStorageBoxes.lookup key).isSome then
          .error (.error ("The storageBox " ++ key ++ " is already registered in this instance."))
        else
          .ok (.handle (some key),
            { c with customStorageBoxes := assocSet key (argAt args 1) c.customStorageBoxes })
  | "unregisterStorageBox" =>
      if argAt args 0 = jsUndefined then .error (.error "No storageBox name given.")
      else
        let key := (argAt args 0).toJsString
        if (c.customStorageBoxes.lookup key).isNone then
          .error (.error ("The storageBox " ++ key ++ " is not registered in this instance yet."))
        else
          .ok (.unit, { c with customStorageBoxes := assocDelete key c.customStorageBoxes })
  | "queryServers" =>
      .ok (.request (closureRequest "get" (c.baseUrl.toJsString ++ "server") none), c)
  | "queryServer" =>
      let ip := argAt args 0
      if ip = jsUndefined then .error (.error "Server IP is missing.")
      else .ok (.request (closureRequest "get"
        (c.baseUrl.toJsString ++ "server/" ++ ip.toJsString) none), c)
  | "setServerName" =>
      let ip := argAt args 0
      let newName := argAt args 1
      if ip = jsUndefined then .error (.error "Server IP is missing.")
      else if newName = jsUndefined then .error (.error "New server name is missing.")
      else .ok (.request (closureRequest "post"
        (c.baseUrl.toJsString ++ "server/" ++ ip.toJsString)
        (some [("server_name", newName)])), c)
  | "resetServer" =>
      let ip := argAt args 0
      if ip = jsUndefined then .error (.error "Server IP is missing.")
      else .ok (.request (closureRequest "post"
        (c.baseUrl.toJsString ++ "reset/" ++ ip.toJsString)
        (some [("type", jsOr (argAt args 1) (jsStr "sw"))])), c)
  | "wakeServer" =>
      let ip := argAt args 0
      if ip = jsUndefined then .error (.error "Server IP is missing.")
      else .ok (.request (closureRequest "post"
        (c.baseUrl.toJsString ++ "wol/" ++ ip.toJsString)
        (some [("server_ip", ip)])), c)
  | "queryStorageBoxes" =>
      let id := argAt args 0
      .ok (.request (closureRequest "get"
        (c.baseUrl.toJsString ++ "storagebox" ++
          (if id = jsUndefined then "" else "/" ++ id.toJsString)) none), c)
  | "updateStorageBoxName" =>
      let id := argAt args 0
      let newName := argAt args 1
      if id = jsUndefined then .error (.error "StorageBox ID is missing.")
      else if newName = jsUndefined then .error (.error "New storageBox name is missing.")
      else .ok (.request (closureRequest "post"
        (c.baseUrl.toJsString ++ "storagebox/" ++ id.toJsString)
        (some [("storagebox_name", newName)])), c)
  | other =>
      .error (.typeError ("_self." ++ other ++ " is not a function"))

/-- Invoke a member on a closure-client server handle bound to
`boundName` (src/index.js, inner proxy get trap, lines 165 to 199): when
the requested name is an own property of the client, the trap returns a
forwarding function that unshifts `_customServers[boundName]` — read
from the registry at call time, hence `undefined` once the name has been
unregistered — onto the arguments and applies the member; otherwise it
returns a function that throws the not-implemented Error naming the
method. -/
def closureHandleInvoke (c : ClosureClient) (boundName : String) (m : String)
    (args : List JsValue) : Except JsError (ClosureResult × ClosureClient) :=
  if m ∈ closureOwnPropNames then
    closureCall c m (((c.customServers.lookup boundName).getD jsUndefined) :: args)
  else
    .error (.error ("The method " ++ m ++ " is not implemented. Args: "))

/-- The endpoint operations among the modelled closure-client members:
the own properties that are API operations in the sense of the spec
Endpoint Method Table (they issue one HTTP request).  The registration
management functions and the two proxy container properties are not
endpoint operations. -/
def closureOpNames : List String :=
  ["queryServers", "queryServer", "setServerName", "resetServer", "wakeServer",
   "queryStorageBoxes", "updateStorageBoxName"]

/-- Looking up the key at the head of an association list. -/
theorem lookup_cons_self {α β : Type} [DecidableEq α] (k : α) (v : β)
    (l : List (α × β)) : ((k, v) :: l).lookup k = some v := by
  simp [List.lookup_cons, beq_self_eq_true]

/-- Looking up a different key skips the head of an association list. -/
theorem lookup_cons_ne {α β : Type} [DecidableEq α] (k k2 : α) (v : β)
    (l : List (α × β)) (h : k2 ≠ k) : ((k, v) :: l).lookup k2 = l.lookup k2 := by
  rw [List.lookup_cons, show (k2 == k) = false from beq_eq_false_iff_ne.mpr h]

/-- Looking up the key just set finds the new value. -/
theorem assocSet_lookup_self {α β : Type} [DecidableEq α] (k : α) (v : β) :
    ∀ l : List (α × β), (assocSet k v l).lookup k = some v
  | [] => lookup_cons_self k v []
  | (k2, v2) :: rest => by
      by_cases h : k2 = k
      · simp only [assocSet, if_pos h]
        exact lookup_cons_self k v rest
      · simp only [assocSet, if_neg h]
        rw [lookup_cons_ne k2 k v2 _ (Ne.symm h)]
        exact assocSet_lookup_self k v rest

/-- Setting one key leaves lookups of other keys unchanged. -/
theorem assocSet_lookup_ne {α β : Type} [DecidableEq α] (k k2 : α) (v : β)
    (hne : k2 ≠ k) : ∀ l : List (α × β), (assocSet k v l).lookup k2 = l.lookup k2
  | [] => by
      simp only [assocSet]
      rw [lookup_cons_ne k k2 v [] hne]
  | (k3, v3) :: rest => by
      by_cases h : k3 = k
      · subst h
        rw [show assocSet k3 v ((k3, v3) :: rest) = (k3, v) :: rest by simp [assocSet]]
        rw [lookup_cons_ne k3 k2 v rest hne, lookup_cons_ne k3 k2 v3 rest hne]
      · simp only [assocSet, if_neg h]
        by_cases h2 : k2 = k3
        · subst h2
          rw [lookup_cons_self, lookup_cons_self]
        · rw [lookup_cons_ne k3 k2 v3 _ h2, lookup_cons_ne k3 k2 v3 _ h2]
          exact assocSet_lookup_ne k k2 v hne rest

/-- Inversion of a successful `registerServer` call: the key passed the
guard, the storageBox registry is untouched, the key now resolves to the
returned handle, the server registries of other clients are untouched, and no
handle property changes. -/
theorem registerServer_ok_inv {st : RegistryState} {c : Nat} {key : JsValue}
    {h : Nat} {st1 : RegistryState}
    (hreg : registerServer st c key = .ok (h, st1)) :
    serverKeyRejected key = false ∧
    st1.storageBoxCache = st.storageBoxCache ∧
    lookupServer st1 c key = some h ∧
    (∀ c2, c2 ≠ c → st1.serverCache.lookup c2 = st.serverCache.lookup c2) ∧
    st1.handleProps = st.handleProps := by
  by_cases hg : serverKeyRejected key = true
  · simp [registerServer, hg] at hreg
  · rw [Bool.not_eq_true] at hg
    cases hl : (((st.serverCache.lookup c).getD []).lookup key) with
    | some h0 =>
        rw [registerServer] at hreg
        simp only [hg, Bool.false_eq_true, if_false, hl, Except.ok.injEq,
          Prod.mk.injEq] at hreg
        obtain ⟨hh, hst⟩ := hreg
        subst hh
        subst hst
        exact ⟨hg, rfl, hl, fun c2 _ => rfl, rfl⟩
    | none =>
        rw [registerServer] at hreg
        simp only [hg, Bool.false_eq_true, if_false, hl, Except.ok.injEq,
          Prod.mk.injEq] at hreg
        obtain ⟨hh, hst⟩ := hreg
        subst hh
        subst hst
        refine ⟨hg, rfl, ?_, fun c2 hc2 => ?_, rfl⟩
        · simp [lookupServer, assocSet_lookup_self]
        · exact assocSet_lookup_ne c c2 _ hc2 _

/-- Inversion of a successful `registerStorageBox` call, symmetric to
`registerServer_ok_inv`. -/
theorem registerStorageBox_ok_inv {st : RegistryState} {c : Nat} {key : JsValue}
    {h : Nat} {st1 : RegistryState}
    (hreg : registerStorageBox st c key = .ok (h, st1)) :
    storageBoxKeyRejected key = false ∧
    st1.serverCache = st.serverCache ∧
    lookupStorageBox st1 c key = some h ∧
    (∀ c2, c2 ≠ c → st1.storageBoxCache.lookup c2 = st.storageBoxCache.lookup c2) ∧
    st1.handleProps = st.handleProps := by
  by_cases hg : storageBoxKeyRejected key = true
  · simp [registerStorageBox, hg] at hreg
  · rw [Bool.not_eq_true] at hg
    cases hl : (((st.storageBoxCache.lookup c).getD []).lookup key) with
    | some h0 =>
        rw [registerStorageBox] at hreg
        simp only [hg, Bool.false_eq_true, if_false, hl, Except.ok.injEq,
          Prod.mk.injEq] at hreg
        obtain ⟨hh, hst⟩ := hreg
        subst hh
        subst hst
        exact ⟨hg, rfl, hl, fun c2 _ => rfl, rfl⟩
    | none =>
        rw [registerStorageBox] at hreg
        simp only [hg, Bool.false_eq_true, if_false, hl, Except.ok.injEq,
          Prod.mk.injEq] at hreg
        obtain ⟨hh, hst⟩ := hreg
        subst hh
        subst hst
        refine ⟨hg, rfl, ?_, fun c2 hc2 => ?_, rfl⟩
        · simp [lookupStorageBox, assocSet_lookup_self]
        · exact assocSet_lookup_ne c c2 _ hc2 _

/-- A `registerServer` call whose key passes the guard and is already in
the registry returns the cached handle and leaves the state unchanged. -/
theorem registerServer_cached {st : RegistryState} {c : Nat} {key : JsValue} {h : Nat}
    (hg : serverKeyRejected key = false)
    (hl : lookupServer st c key = some h) :
    registerServer st c key = .ok (h, st) := by
  rw [registerServer]
  simp only [hg, Bool.false_eq_true, if_false]
  rw [show (((st.serverCache.lookup c).getD []).lookup key) = some h from hl]

/-- A `registerStorageBox` call whose key passes the guard and is already
in the registry returns the cached handle and leaves the state
unchanged. -/
theorem registerStorageBox_cached {st : RegistryState} {c : Nat} {key : JsValue} {h : Nat}
    (hg : storageBoxKeyRejected key = false)
    (hl : lookupStorageBox st c key = some h) :
    registerStorageBox st c key = .ok (h, st) := by
  rw [registerStorageBox]
  simp only [hg, Bool.false_eq_true, if_false]
  rw [show (((st.storageBoxCache.lookup c).getD []).lookup key) = some h from hl]

/-- Attaching a handle property does not touch the registries. -/
theorem setHandleProp_caches (st : RegistryState) (h : Nat) (nm : String) (v : JsValue) :
    (setHandleProp st h nm v).serverCache = st.serverCache ∧
    (setHandleProp st h nm v).storageBoxCache = st.storageBoxCache :=
  ⟨rfl, rfl⟩

/-- A property just attached to a handle reads back. -/
theorem getHandleProp_set (st : RegistryState) (h : Nat) (nm : String) (v : JsValue) :
    getHandleProp (setHandleProp st h nm v) h nm = some v := by
  simp [getHandleProp, setHandleProp, assocSet_lookup_self]

/-- C1: for every client and binding key (either kind), a second
registration lookup after a successful one — part_003 has no
unregistration operation at all, so none can intervene — returns the very
same handle identifier and the very same state, so a mutable property
attached through the first reference is readable through the second
reference.  This is the scenario of the test "Should share properties
across instances between the same IPs". -/
theorem c1_registration_lookup_identity
    {st : RegistryState} {c : Nat} {key : JsValue} {h : Nat} {st1 : RegistryState}
    (nm : String) (v : JsValue) :
    (registerServer st c key = .ok (h, st1) →
      registerServer (setHandleProp st1 h nm v) c key =
        .ok (h, setHandleProp st1 h nm v) ∧
      getHandleProp (setHandleProp st1 h nm v) h nm = some v) ∧
    (registerStorageBox st c key = .ok (h, st1) →
      registerStorageBox (setHandleProp st1 h nm v) c key =
        .ok (h, setHandleProp st1 h nm v) ∧
      getHandleProp (setHandleProp st1 h nm v) h nm = some v) := by
  constructor
  · intro hreg
    obtain ⟨hg, -, hl, -, -⟩ := registerServer_ok_inv hreg
    exact ⟨registerServer_cached hg hl, getHandleProp_set st1 h nm v⟩
  · intro hreg
    obtain ⟨hg, -, hl, -, -⟩ := registerStorageBox_ok_inv hreg
    exact ⟨registerStorageBox_cached hg hl, getHandleProp_set st1 h nm v⟩

/-- Witness for C1: the concrete scenario of the test suite, client 0,
server IP 123.123.123.123, property testProperty set to 123. -/
theorem c1_witness :
    registerServer
        (setHandleProp
          { nextId := 1,
            serverCache := [(0, [(jsStr "123.123.123.123", 0)])],
            storageBoxCache := [],
            handles := [(0, ⟨BindingKind.server, 0, jsStr "123.123.123.123"⟩)],
            handleProps := [] } 0 "testProperty" (jsNum 123))
        0 (jsStr "123.123.123.123") =
      .ok (0, setHandleProp
          { nextId := 1,
            serverCache := [(0, [(jsStr "123.123.123.123", 0)])],
            storageBoxCache := [],
            handles := [(0, ⟨BindingKind.server, 0, jsStr "123.123.123.123"⟩)],
            handleProps := [] } 0 "testProperty" (jsNum 123)) ∧
    getHandleProp
        (setHandleProp
          { nextId := 1,
            serverCache := [(0, [(jsStr "123.123.123.123", 0)])],
            storageBoxCache := [],
            handles := [(0, ⟨BindingKind.server, 0, jsStr "123.123.123.123"⟩)],
            handleProps := [] } 0 "testProperty" (jsNum 123)) 0 "testProperty" =
      some (jsNum 123) :=
  (c1_registration_lookup_identity "testProperty" (jsNum 123)).1
    (show registerServer RegistryState.init 0 (jsStr "123.123.123.123") = _ from rfl)

/-- C2 counterexample: registering the same server IP twice on the same
client does not fail; the second `registerServer` call returns exactly
the result of the first (same handle, unchanged registry), instead of an
AlreadyRegisteredError. -/
theorem c2_counterexample :
    (registerServer RegistryState.init 0 (jsStr "123.123.123.123")).isOk = true ∧
    (registerServer RegistryState.init 0 (jsStr "123.123.123.123")).bind
        (fun p => registerServer p.2 0 (jsStr "123.123.123.123")) =
      registerServer RegistryState.init 0 (jsStr "123.123.123.123") :=
  ⟨rfl, rfl⟩

/-- C2 amended: a `register` call for a (kind, key) pair already present
in the registry does not fail; it returns the handle created by the
first registration and leaves the registry state unchanged (registration
is idempotent in part_003; the test suite relies on this). -/
theorem c2_amended_reregistration_idempotent
    {st : RegistryState} {c : Nat} {key : JsValue} {h : Nat} {st1 : RegistryState} :
    (registerServer st c key = .ok (h, st1) →
      registerServer st1 c key = .ok (h, st1)) ∧
    (registerStorageBox st c key = .ok (h, st1) →
      registerStorageBox st1 c key = .ok (h, st1)) := by
  constructor
  · intro hreg
    obtain ⟨hg, -, hl, -, -⟩ := registerServer_ok_inv hreg
    exact registerServer_cached hg hl
  · intro hreg
    obtain ⟨hg, -, hl, -, -⟩ := registerStorageBox_ok_inv hreg
    exact registerStorageBox_cached hg hl

/-- Witness for C2 amended: concrete re-registration of server IP
123.123.123.123 and storageBox ID 1234 on client 0. -/
theorem c2_amended_witness :
    registerServer
        { nextId := 1,
          serverCache := [(0, [(jsStr "123.123.123.123", 0)])],
          storageBoxCache := [],
          handles := [(0, ⟨BindingKind.server, 0, jsStr "123.123.123.123"⟩)],
          handleProps := [] } 0 (jsStr "123.123.123.123") =
      .ok (0, { nextId := 1,
                serverCache := [(0, [(jsStr "123.123.123.123", 0)])],
                storageBoxCache := [],
                handles := [(0, ⟨BindingKind.server, 0, jsStr "123.123.123.123"⟩)],
                handleProps := [] }) ∧
    registerStorageBox
        { nextId := 1,
          serverCache := [],
          storageBoxCache := [(0, [(jsNum 1234, 0)])],
          handles := [(0, ⟨BindingKind.storageBox, 0, jsNum 1234⟩)],
          handleProps := [] } 0 (jsNum 1234) =
      .ok (0, { nextId := 1,
                serverCache := [],
                storageBoxCache := [(0, [(jsNum 1234, 0)])],
                handles := [(0, ⟨BindingKind.storageBox, 0, jsNum 1234⟩)],
                handleProps := [] }) :=
  ⟨(c2_amended_reregistration_idempotent).1
      (show registerServer RegistryState.init 0 (jsStr "123.123.123.123") = _ from rfl),
   (c2_amended_reregistration_idempotent).2
      (show registerStorageBox RegistryState.init 0 (jsNum 1234) = _ from rfl)⟩

/-- C6 counterexample: the concrete kind-isolation scenario of the claim
cannot even start — registering a server under key "1234" is rejected by
the length guard (length 4 is below 7) with the Missing IP address
error, so no entry is created; the storage-box half with numeric key
1234 does succeed. -/
theorem c6_counterexample :
    registerServer RegistryState.init 0 (jsStr "1234") =
      .error (.error "Missing IP address") ∧
    (registerStorageBox RegistryState.init 0 (jsNum 1234)).isOk = true :=
  ⟨rfl, rfl⟩

/-- C6 amended: with a server key long enough to pass the guard, equal
textual keys for the two kinds occupy independent registries (here key
"1234567" registered as server and as storageBox on client 0 yields two
distinct handles, each found in its own registry), and a registration on
one client is never visible through the registry of another client of either
kind. -/
theorem c6_amended_registry_isolation :
    (registerServer RegistryState.init 0 (jsStr "1234567") =
        .ok (0, { nextId := 1,
                  serverCache := [(0, [(jsStr "1234567", 0)])],
                  storageBoxCache := [],
                  handles := [(0, ⟨BindingKind.server, 0, jsStr "1234567"⟩)],
                  handleProps := [] }) ∧
     registerStorageBox
        { nextId := 1,
          serverCache := [(0, [(jsStr "1234567", 0)])],
          storageBoxCache := [],
          handles := [(0, ⟨BindingKind.server, 0, jsStr "1234567"⟩)],
          handleProps := [] } 0 (jsStr "1234567") =
        .ok (1, { nextId := 2,
                  serverCache := [(0, [(jsStr "1234567", 0)])],
                  storageBoxCache := [(0, [(jsStr "1234567", 1)])],
                  handles := [(1, ⟨BindingKind.storageBox, 0, jsStr "1234567"⟩),
                              (0, ⟨BindingKind.server, 0, jsStr "1234567"⟩)],
                  handleProps := [] }) ∧
     lookupServer
        { nextId := 2,
          serverCache := [(0, [(jsStr "1234567", 0)])],
          storageBoxCache := [(0, [(jsStr "1234567", 1)])],
          handles := [(1, ⟨BindingKind.storageBox, 0, jsStr "1234567"⟩),
                      (0, ⟨BindingKind.server, 0, jsStr "1234567"⟩)],
          handleProps := [] } 0 (jsStr "1234567") = some 0 ∧
     lookupStorageBox
        { nextId := 2,
          serverCache := [(0, [(jsStr "1234567", 0)])],
          storageBoxCache := [(0, [(jsStr "1234567", 1)])],
          handles := [(1, ⟨BindingKind.storageBox, 0, jsStr "1234567"⟩),
                      (0, ⟨BindingKind.server, 0, jsStr "1234567"⟩)],
          handleProps := [] } 0 (jsStr "1234567") = some 1) ∧
    (∀ st c key h st1 c2 key2, registerServer st c key = .ok (h, st1) → c2 ≠ c →
        lookupServer st1 c2 key2 = lookupServer st c2 key2 ∧
        lookupStorageBox st1 c2 key2 = lookupStorageBox st c2 key2) ∧
    (∀ st c key h st1 c2 key2, registerStorageBox st c key = .ok (h, st1) → c2 ≠ c →
        lookupStorageBox st1 c2 key2 = lookupStorageBox st c2 key2 ∧
        lookupServer st1 c2 key2 = lookupServer st c2 key2) ∧
    (∀ st c key h st1 key2, registerServer st c key = .ok (h, st1) →
        lookupStorageBox st1 c key2 = lookupStorageBox st c key2) ∧
    (∀ st c key h st1 key2, registerStorageBox st c key = .ok (h, st1) →
        lookupServer st1 c key2 = lookupServer st c key2) := by
  refine ⟨⟨rfl, rfl, rfl, rfl⟩, ?_, ?_, ?_, ?_⟩
  · intro st c key h st1 c2 key2 hreg hc2
    obtain ⟨-, hsb, -, hframe, -⟩ := registerServer_ok_inv hreg
    constructor
    · simp only [lookupServer, hframe c2 hc2]
    · simp only [lookupStorageBox, hsb]
  · intro st c key h st1 c2 key2 hreg hc2
    obtain ⟨-, hsc, -, hframe, -⟩ := registerStorageBox_ok_inv hreg
    constructor
    · simp only [lookupStorageBox, hframe c2 hc2]
    · simp only [lookupServer, hsc]
  · intro st c key h st1 key2 hreg
    obtain ⟨-, hsb, -, -, -⟩ := registerServer_ok_inv hreg
    simp only [lookupStorageBox, hsb]
  · intro st c key h st1 key2 hreg
    obtain ⟨-, hsc, -, -, -⟩ := registerStorageBox_ok_inv hreg
    simp only [lookupServer, hsc]

/-- Witness for C6 amended: registering server 1234567 on client 0 is
invisible through client 1 and through the storage-box registry. -/
theorem c6_witness :
    (lookupServer
        { nextId := 1,
          serverCache := [(0, [(jsStr "1234567", 0)])],
          storageBoxCache := [],
          handles := [(0, ⟨BindingKind.server, 0, jsStr "1234567"⟩)],
          handleProps := [] } 1 (jsStr "1234567") =
      lookupServer RegistryState.init 1 (jsStr "1234567") ∧
     lookupStorageBox
        { nextId := 1,
          serverCache := [(0, [(jsStr "1234567", 0)])],
          storageBoxCache := [],
          handles := [(0, ⟨BindingKind.server, 0, jsStr "1234567"⟩)],
          handleProps := [] } 1 (jsStr "1234567") =
      lookupStorageBox RegistryState.init 1 (jsStr "1234567")) ∧
    lookupStorageBox
        { nextId := 1,
          serverCache := [(0, [(jsStr "1234567", 0)])],
          storageBoxCache := [],
          handles := [(0, ⟨BindingKind.server, 0, jsStr "1234567"⟩)],
          handleProps := [] } 0 (jsNum 9) =
      lookupStorageBox RegistryState.init 0 (jsNum 9) :=
  ⟨c6_amended_registry_isolation.2.1 RegistryState.init 0 (jsStr "1234567") 0 _
      1 (jsStr "1234567") rfl (by decide),
   c6_amended_registry_isolation.2.2.2.1 RegistryState.init 0 (jsStr "1234567") 0 _
      (jsNum 9) rfl⟩

/-- The server key guard holds exactly for `undefined` and for values
whose length property is below 7. -/
theorem serverKeyRejected_iff (key : JsValue) :
    serverKeyRejected key = true ↔
      (key = jsUndefined ∨ ∃ n, key.lengthProp = some n ∧ n < 7) := by
  simp only [serverKeyRejected, Bool.or_eq_true, decide_eq_true_eq]
  constructor
  · rintro (h | h)
    · exact Or.inl h
    · right
      cases hl : key.lengthProp with
      | some n =>
          rw [hl] at h
          exact ⟨n, rfl, by simpa using h⟩
      | none =>
          rw [hl] at h
          simp at h
  · rintro (h | ⟨n, hn, hlt⟩)
    · exact Or.inl h
    · right
      rw [hn]
      simpa using hlt

/-- The storageBox key guard holds exactly for `undefined` and for values
whose length property equals 0. -/
theorem storageBoxKeyRejected_iff (key : JsValue) :
    storageBoxKeyRejected key = true ↔
      (key = jsUndefined ∨ key.lengthProp = some 0) := by
  simp only [storageBoxKeyRejected, Bool.or_eq_true, decide_eq_true_eq]
  constructor
  · rintro (h | h)
    · exact Or.inl h
    · right
      cases hl : key.lengthProp with
      | some n =>
          rw [hl] at h
          simp at h
          rw [h]
      | none =>
          rw [hl] at h
          simp at h
  · rintro (h | h)
    · exact Or.inl h
    · right
      rw [h]
      simp

/-- A `registerServer` call fails exactly when the key guard fires. -/
theorem registerServer_error_iff (st : RegistryState) (c : Nat) (key : JsValue) :
    registerServer st c key = .error (.error "Missing IP address") ↔
      serverKeyRejected key = true := by
  constructor
  · intro h
    by_contra hg
    rw [Bool.not_eq_true] at hg
    rw [registerServer] at h
    simp only [hg, Bool.false_eq_true, if_false] at h
    cases hl : (((st.serverCache.lookup c).getD []).lookup key) with
    | some h0 => simp [hl] at h
    | none => simp [hl] at h
  · intro hg
    rw [registerServer, if_pos hg]

/-- A `registerStorageBox` call fails exactly when the key guard fires. -/
theorem registerStorageBox_error_iff (st : RegistryState) (c : Nat) (key : JsValue) :
    registerStorageBox st c key = .error (.error "Missing storageBox ID") ↔
      storageBoxKeyRejected key = true := by
  constructor
  · intro h
    by_contra hg
    rw [Bool.not_eq_true] at hg
    rw [registerStorageBox] at h
    simp only [hg, Bool.false_eq_true, if_false] at h
    cases hl : (((st.storageBoxCache.lookup c).getD []).lookup key) with
    | some h0 => simp [hl] at h
    | none => simp [hl] at h
  · intro hg
    rw [registerStorageBox, if_pos hg]

/-- A key passing the guard always registers successfully. -/
theorem registerServer_isOk (st : RegistryState) (c : Nat) (key : JsValue)
    (hg : serverKeyRejected key = false) :
    (registerServer st c key).isOk = true := by
  rw [registerServer]
  simp only [hg, Bool.false_eq_true, if_false]
  cases hl : (((st.serverCache.lookup c).getD []).lookup key) <;>
    simp [hl, Except.isOk, Except.toBool]

/-- A storageBox key passing the guard always registers successfully. -/
theorem registerStorageBox_isOk (st : RegistryState) (c : Nat) (key : JsValue)
    (hg : storageBoxKeyRejected key = false) :
    (registerStorageBox st c key).isOk = true := by
  rw [registerStorageBox]
  simp only [hg, Bool.false_eq_true, if_false]
  cases hl : (((st.storageBoxCache.lookup c).getD []).lookup key) <;>
    simp [hl, Except.isOk, Except.toBool]

/-- C10: the registration key guards are exactly as claimed — server
registration fails with Missing IP address precisely for `undefined` or
a length property below 7 (any string of 7 or more characters is
accepted regardless of IP syntax, non-empty shorter strings are
rejected); storageBox registration fails with Missing storageBox ID
precisely for `undefined` or a length property equal to 0, so every
number, 0 and negatives included, is accepted without validation. -/
theorem c10_registration_key_guards :
    (∀ st c key, registerServer st c key = .error (.error "Missing IP address") ↔
        (key = jsUndefined ∨ ∃ n, key.lengthProp = some n ∧ n < 7)) ∧
    (∀ st c (s : String), 7 ≤ s.length →
        (registerServer st c (jsStr s)).isOk = true) ∧
    (∀ st c (s : String), s ≠ "" → s.length < 7 →
        registerServer st c (jsStr s) = .error (.error "Missing IP address")) ∧
    (∀ st c key, registerStorageBox st c key = .error (.error "Missing storageBox ID") ↔
        (key = jsUndefined ∨ key.lengthProp = some 0)) ∧
    (∀ st c (n : Int), (registerStorageBox st c (jsNum n)).isOk = true) := by
  refine ⟨?_, ?_, ?_, ?_, ?_⟩
  · intro st c key
    rw [registerServer_error_iff, serverKeyRejected_iff]
  · intro st c s hs
    refine registerServer_isOk st c (jsStr s) ?_
    rw [← Bool.not_eq_true, serverKeyRejected_iff]
    rintro (h | ⟨n, hn, hlt⟩)
    · simp [jsStr, jsUndefined] at h
    · simp only [jsStr, JsValue.lengthProp, Option.some.injEq] at hn
      omega
  · intro st c s _ hlt
    rw [registerServer_error_iff, serverKeyRejected_iff]
    exact Or.inr ⟨s.length, rfl, hlt⟩
  · intro st c key
    rw [registerStorageBox_error_iff, storageBoxKeyRejected_iff]
  · intro st c n
    refine registerStorageBox_isOk st c (jsNum n) ?_
    rw [← Bool.not_eq_true, storageBoxKeyRejected_iff]
    rintro (h | h)
    · simp [jsNum, jsUndefined] at h
    · simp [jsNum, JsValue.lengthProp] at h

/-- Witness for C10: string 1234567 is accepted as a server key, string
123456 is rejected, and the numbers 0 and -5 are accepted as storageBox
keys. -/
theorem c10_witness :
    (registerServer RegistryState.init 0 (jsStr "1234567")).isOk = true ∧
    registerServer RegistryState.init 0 (jsStr "123456") =
      .error (.error "Missing IP address") ∧
    (registerStorageBox RegistryState.init 0 (jsNum 0)).isOk = true ∧
    (registerStorageBox RegistryState.init 0 (jsNum (-5))).isOk = true :=
  ⟨c10_registration_key_guards.2.1 RegistryState.init 0 "1234567" (by decide),
   c10_registration_key_guards.2.2.1 RegistryState.init 0 "123456" (by decide) (by decide),
   c10_registration_key_guards.2.2.2.2 RegistryState.init 0 0,
   c10_registration_key_guards.2.2.2.2 RegistryState.init 0 (-5)⟩

/-- C3: invoking an API operation name on a bound handle equals invoking
the same operation on the underlying client with the bound key inserted
as first positional argument and the caller arguments shifted right by
one — in the class-based client for both handle kinds, and in the
closure-based client for a handle whose name is registered to a key. -/
theorem c3_forwarding_inserts_key
    (m : String) (args : List JsValue) :
    (∀ (inst : RobotInstance) (key : JsValue), m ∈ robotOpNames →
      identifiedServerInvoke inst key m args = robotInvoke inst m (key :: args) ∧
      identifiedStorageBoxInvoke inst key m args = robotInvoke inst m (key :: args)) ∧
    (∀ (c : ClosureClient) (bound : String) (ip : JsValue),
      m ∈ closureOpNames → c.customServers.lookup bound = some ip →
      closureHandleInvoke c bound m args = closureCall c m (ip :: args)) := by
  constructor
  · intro inst key hm
    constructor
    · rw [identifiedServerInvoke, if_pos hm]
    · rw [identifiedStorageBoxInvoke, if_pos hm]
  · intro c bound ip hm hlook
    have hsub : closureOpNames ⊆ closureOwnPropNames := by decide
    rw [closureHandleInvoke, if_pos (hsub hm), hlook, Option.getD_some]

/-- Witness for C3: forwarding queryServer through a server handle bound
to 123.123.123.123 in both client generations. -/
theorem c3_witness :
    (identifiedServerInvoke ⟨jsStr "test", jsStr "test", jsStr "http://localhost:8080"⟩
        (jsStr "123.123.123.123") "queryServer" [] =
      robotInvoke ⟨jsStr "test", jsStr "test", jsStr "http://localhost:8080"⟩
        "queryServer" [jsStr "123.123.123.123"] ∧
     identifiedStorageBoxInvoke ⟨jsStr "test", jsStr "test", jsStr "http://localhost:8080"⟩
        (jsStr "123.123.123.123") "queryServer" [] =
      robotInvoke ⟨jsStr "test", jsStr "test", jsStr "http://localhost:8080"⟩
        "queryServer" [jsStr "123.123.123.123"]) ∧
    closureHandleInvoke
        ⟨jsStr "http://localhost:8080/", [("myServer", jsStr "123.123.123.123")], []⟩
        "myServer" "queryServer" [] =
      closureCall
        ⟨jsStr "http://localhost:8080/", [("myServer", jsStr "123.123.123.123")], []⟩
        "queryServer" [jsStr "123.123.123.123"] :=
  ⟨(c3_forwarding_inserts_key "queryServer" []).1
      ⟨jsStr "test", jsStr "test", jsStr "http://localhost:8080"⟩
      (jsStr "123.123.123.123") (by decide),
   (c3_forwarding_inserts_key "queryServer" []).2
      ⟨jsStr "http://localhost:8080/", [("myServer", jsStr "123.123.123.123")], []⟩
      "myServer" (jsStr "123.123.123.123") (by decide) rfl⟩

/-- C4 counterexample: two names that are not API operations do not fail
with the unknown-operation error when invoked on a bound handle of the
closure client, because the trap only tests own-property existence.  The
non-function own property server produces an engine TypeError instead of
the not-implemented Error naming it, and the own function registerServer
does not fail at all — it is forwarded with the bound key prepended and
registers a new server named by the bound IP address. -/
theorem c4_counterexample :
    ("server" ∉ closureOpNames ∧ "registerServer" ∉ closureOpNames) ∧
    closureHandleInvoke
        ⟨jsStr "http://localhost:8080/", [("myServer", jsStr "123.123.123.123")], []⟩
        "myServer" "server" [] =
      .error (.typeError "_self.server.apply is not a function") ∧
    closureHandleInvoke
        ⟨jsStr "http://localhost:8080/", [("myServer", jsStr "123.123.123.123")], []⟩
        "myServer" "server" [] ≠
      .error (.error "The method server is not implemented. Args: ") ∧
    closureHandleInvoke
        ⟨jsStr "http://localhost:8080/", [("myServer", jsStr "123.123.123.123")], []⟩
        "myServer" "registerServer" [jsStr "5.6.7.8"] =
      .ok (.handle (some "123.123.123.123"),
           ⟨jsStr "http://localhost:8080/",
            [("myServer", jsStr "123.123.123.123"),
             ("123.123.123.123", jsStr "5.6.7.8")], []⟩) := by
  refine ⟨⟨by decide, by decide⟩, rfl, ?_, rfl⟩
  rw [show closureHandleInvoke
        ⟨jsStr "http://localhost:8080/", [("myServer", jsStr "123.123.123.123")], []⟩
        "myServer" "server" [] =
      .error (.typeError "_self.server.apply is not a function") from rfl]
  simp

/-- C4 amended: the per-call detection keys on own-property existence,
not on operation-hood — a name that is not an own property of the
closure client fails with the not-implemented Error naming it and no
request is issued; in the class-based client a name without a stamped
forwarder reads as undefined on the handle and calling it raises a
TypeError, likewise without any request. -/
theorem c4_amended_unknown_name_detection :
    (∀ (c : ClosureClient) (bound : String) (m : String) (args : List JsValue),
        m ∉ closureOwnPropNames →
        closureHandleInvoke c bound m args =
          .error (.error ("The method " ++ m ++ " is not implemented. Args: "))) ∧
    (∀ (inst : RobotInstance) (key : JsValue) (m : String) (args : List JsValue),
        m ∉ robotOpNames →
        identifiedServerInvoke inst key m args =
          .error (.typeError ("handle." ++ m ++ " is not a function")) ∧
        identifiedStorageBoxInvoke inst key m args =
          .error (.typeError ("handle." ++ m ++ " is not a function"))) := by
  constructor
  · intro c bound m args hm
    rw [closureHandleInvoke, if_neg hm]
  · intro inst key m args hm
    constructor
    · rw [identifiedServerInvoke, if_neg hm]
    · rw [identifiedStorageBoxInvoke, if_neg hm]

/-- Witness for C4 amended: the undefined name fooBar on concrete
handles of both client generations. -/
theorem c4_amended_witness :
    closureHandleInvoke
        ⟨jsStr "http://localhost:8080/", [("myServer", jsStr "123.123.123.123")], []⟩
        "myServer" "fooBar" [] =
      .error (.error "The method fooBar is not implemented. Args: ") ∧
    identifiedServerInvoke ⟨jsStr "test", jsStr "test", jsStr "http://localhost:8080"⟩
        (jsStr "123.123.123.123") "fooBar" [] =
      .error (.typeError "handle.fooBar is not a function") :=
  ⟨c4_amended_unknown_name_detection.1
      ⟨jsStr "http://localhost:8080/", [("myServer", jsStr "123.123.123.123")], []⟩
      "myServer" "fooBar" [] (by decide),
   (c4_amended_unknown_name_detection.2
      ⟨jsStr "test", jsStr "test", jsStr "http://localhost:8080"⟩
      (jsStr "123.123.123.123") "fooBar" [] (by decide)).1⟩

/-- C5 counterexample: register server myServer with IP 123.123.123.123,
hold the handle, unregister the name, then invoke queryServer on the
held handle — the call does not forward the original bound key; the
forwarding function reads the registry at call time, gets undefined, and
the operation fails with Server IP is missing, unlike the same operation
invoked on the client with the original key, which issues the request. -/
theorem c5_counterexample :
    closureRegisterServer ⟨jsStr "http://localhost:8080/", [], []⟩
        (jsStr "myServer") (jsStr "123.123.123.123") =
      .ok (.handle (some "myServer"),
           ⟨jsStr "http://localhost:8080/", [("myServer", jsStr "123.123.123.123")], []⟩) ∧
    closureUnregisterServer
        ⟨jsStr "http://localhost:8080/", [("myServer", jsStr "123.123.123.123")], []⟩
        (jsStr "myServer") =
      .ok (.unit, ⟨jsStr "http://localhost:8080/", [], []⟩) ∧
    closureHandleInvoke ⟨jsStr "http://localhost:8080/", [], []⟩
        "myServer" "queryServer" [] =
      .error (.error "Server IP is missing.") ∧
    closureCall ⟨jsStr "http://localhost:8080/", [], []⟩
        "queryServer" [jsStr "123.123.123.123"] =
      .ok (.request (closureRequest "get" "http://localhost:8080/server/123.123.123.123" none),
           ⟨jsStr "http://localhost:8080/", [], []⟩) ∧
    closureHandleInvoke ⟨jsStr "http://localhost:8080/", [], []⟩
        "myServer" "queryServer" [] ≠
      closureCall ⟨jsStr "http://localhost:8080/", [], []⟩
        "queryServer" [jsStr "123.123.123.123"] := by
  refine ⟨rfl, rfl, rfl, rfl, ?_⟩
  rw [show closureHandleInvoke ⟨jsStr "http://localhost:8080/", [], []⟩
        "myServer" "queryServer" [] =
      .error (.error "Server IP is missing.") from rfl]
  rw [show closureCall ⟨jsStr "http://localhost:8080/", [], []⟩
        "queryServer" [jsStr "123.123.123.123"] =
      .ok (.request (closureRequest "get" "http://localhost:8080/server/123.123.123.123" none),
           ⟨jsStr "http://localhost:8080/", [], []⟩) from rfl]
  simp

/-- C5 amended: unregistration does not invalidate or mutate a
previously obtained handle object — the handle still resolves member
names per call, and unknown names still raise the not-implemented Error
— but the forwarding function looks the bound key up in the registry at
invocation time, so after unregistration it injects undefined instead of
the original key and a key-validating operation such as queryServer
fails synchronously with its missing-key error; no request is issued. -/
theorem c5_amended_unregistered_handle (base ip : JsValue) (name : String)
    (args : List JsValue) (c1 c2 : ClosureClient) (r : ClosureResult) :
    closureRegisterServer ⟨base, [], []⟩ (jsStr name) ip = .ok (r, c1) →
    closureUnregisterServer c1 (jsStr name) = .ok (.unit, c2) →
    closureHandleInvoke c2 name "queryServer" args =
        .error (.error "Server IP is missing.") ∧
    (∀ m, m ∉ closureOwnPropNames →
        closureHandleInvoke c2 name m args =
          .error (.error ("The method " ++ m ++ " is not implemented. Args: "))) := by
  intro hreg hunreg
  have hns : (jsStr name) = jsUndefined ↔ False := by simp [jsStr, jsUndefined]
  rw [closureRegisterServer] at hreg
  simp only [hns, iff_false, if_neg, if_false] at hreg
  rw [show (jsStr name).toJsString = name from rfl] at hreg
  simp only [List.lookup, Option.isSome_none, Bool.false_eq_true, if_false,
    Except.ok.injEq, Prod.mk.injEq] at hreg
  obtain ⟨-, hc1⟩ := hreg
  subst hc1
  rw [closureUnregisterServer] at hunreg
  simp only [hns, iff_false, if_neg, if_false] at hunreg
  rw [show (jsStr name).toJsString = name from rfl] at hunreg
  rw [show (assocSet name ip ([] : List (String × JsValue))) = [(name, ip)] from rfl]
    at hunreg
  rw [lookup_cons_self] at hunreg
  simp only [Option.isNone_some, Bool.false_eq_true, if_false, Except.ok.injEq,
    Prod.mk.injEq, true_and] at hunreg
  rw [show (assocDelete name [(name, ip)] : List (String × JsValue)) = [] by
    simp [assocDelete]] at hunreg
  subst hunreg
  constructor
  · rw [closureHandleInvoke, if_pos (by decide : "queryServer" ∈ closureOwnPropNames)]
    rfl
  · intro m hm
    rw [closureHandleInvoke, if_neg hm]

/-- Witness for C5 amended: the concrete register, unregister, invoke
sequence for myServer and IP 123.123.123.123. -/
theorem c5_amended_witness :
    closureHandleInvoke ⟨jsStr "http://localhost:8080/", [], []⟩
        "myServer" "queryServer" [] =
      .error (.error "Server IP is missing.") ∧
    closureHandleInvoke ⟨jsStr "http://localhost:8080/", [], []⟩
        "myServer" "fooBar" [] =
      .error (.error "The method fooBar is not implemented. Args: ") :=
  have h := c5_amended_unregistered_handle (jsStr "http://localhost:8080/")
    (jsStr "123.123.123.123") "myServer" []
    ⟨jsStr "http://localhost:8080/", [("myServer", jsStr "123.123.123.123")], []⟩
    ⟨jsStr "http://localhost:8080/", [], []⟩
    (.handle (some "myServer")) rfl rfl
  ⟨h.1, h.2 "fooBar" (by decide)⟩

/-- C7 counterexample: enableLinuxBoot checks its required distribution
field with hasOwnProperty, so a caller who supplies the field explicitly
set to undefined passes validation and a request is issued — the
operation does not fail synchronously and a network call is attempted,
with undefined serialized into the dist payload field. -/
theorem c7_counterexample :
    robotInvoke ⟨jsStr "test", jsStr "test", jsStr "http://localhost:8080"⟩
        "enableLinuxBoot" [jsStr "123.123.123.123", .obj [("distribution", .undefined)]] =
      .ok (createRequest ⟨jsStr "test", jsStr "test", jsStr "http://localhost:8080"⟩
        "post" "/boot/123.123.123.123/linux"
        (some [("dist", jsUndefined), ("arch", jsNum 64), ("lang", jsStr "en"),
               ("authorized_key", .arr [])])) ∧
    (robotInvoke ⟨jsStr "test", jsStr "test", jsStr "http://localhost:8080"⟩
        "enableLinuxBoot"
        [jsStr "123.123.123.123", .obj [("distribution", .undefined)]]).isOk = true :=
  ⟨rfl, rfl⟩

/-- C7 amended: required positional parameters are guarded with typeof
undefined checks — supplying undefined fails synchronously with an Error
naming the missing parameter and no request is issued; a required field
of an options object (distribution) is guarded with hasOwnProperty, so
only an absent field fails with the naming error, while a field present
with value undefined passes validation and a request is issued. -/
theorem c7_amended_required_parameter_guards :
    (∀ (inst : RobotInstance) (args : List JsValue), argAt args 0 = jsUndefined →
        robotInvoke inst "queryServer" args = .error (.error "Server IP is missing.") ∧
        robotInvoke inst "queryWol" args = .error (.error "Server IP is missing.") ∧
        robotInvoke inst "updateServerName" args = .error (.error "Server IP is missing.") ∧
        robotInvoke inst "resetServer" args = .error (.error "Server IP is missing.") ∧
        robotInvoke inst "wakeServer" args = .error (.error "Server IP is missing.") ∧
        robotInvoke inst "enableRescueBoot" args = .error (.error "Server IP is missing.") ∧
        robotInvoke inst "enableLinuxBoot" args = .error (.error "Server IP is missing.") ∧
        robotInvoke inst "updateStorageBoxName" args =
          .error (.error "StorageBox ID is missing.") ∧
        robotInvoke inst "queryStorageBoxSnapshots" args =
          .error (.error "StorageBox ID is missing.") ∧
        robotInvoke inst "createStorageBoxSnapshot" args =
          .error (.error "StorageBox ID is missing.") ∧
        robotInvoke inst "removeStorageBoxSnapshot" args =
          .error (.error "StorageBox ID is missing.")) ∧
    (∀ (inst : RobotInstance) (v : JsValue) (rest : List JsValue), v ≠ jsUndefined →
        robotInvoke inst "updateServerName" (v :: jsUndefined :: rest) =
          .error (.error "New server name is missing.") ∧
        robotInvoke inst "enableRescueBoot" (v :: jsUndefined :: rest) =
          .error (.error "Operating system is missing.") ∧
        robotInvoke inst "updateStorageBoxName" (v :: jsUndefined :: rest) =
          .error (.error "New storageBox name is missing.") ∧
        robotInvoke inst "removeStorageBoxSnapshot" (v :: jsUndefined :: rest) =
          .error (.error "Snapshot name is missing.")) ∧
    (∀ (inst : RobotInstance) (v : JsValue) (rest : List JsValue)
        (fields : List (String × JsPrim)), v ≠ jsUndefined →
        fields.lookup "distribution" = none →
        robotInvoke inst "enableLinuxBoot" (v :: .obj fields :: rest) =
          .error (.error "Installation distribution is missing.")) := by
  refine ⟨?_, ?_, ?_⟩
  · intro inst args h
    refine ⟨?_, ?_, ?_, ?_, ?_, ?_, ?_, ?_, ?_, ?_, ?_⟩ <;> simp [robotInvoke, h]
  · intro inst v rest hv
    refine ⟨?_, ?_, ?_, ?_⟩ <;> simp [robotInvoke, argAt, hv]
  · intro inst v rest fields hv hfield
    simp [robotInvoke, argAt, hv, optionsHasOwn, JsValue.hasOwnProp, hfield,
      Except.bind, Except.map, Functor.map, Except.pure, bind, pure]

/-- Witness for C7 amended: concrete missing-parameter calls for
updateServerName and enableLinuxBoot. -/
theorem c7_amended_witness :
    robotInvoke ⟨jsStr "test", jsStr "test", jsStr "http://localhost:8080"⟩
        "updateServerName" [jsUndefined, jsStr "newName"] =
      .error (.error "Server IP is missing.") ∧
    robotInvoke ⟨jsStr "test", jsStr "test", jsStr "http://localhost:8080"⟩
        "updateServerName" [jsStr "123.123.123.123", jsUndefined] =
      .error (.error "New server name is missing.") ∧
    robotInvoke ⟨jsStr "test", jsStr "test", jsStr "http://localhost:8080"⟩
        "enableLinuxBoot" [jsStr "123.123.123.123", .obj []] =
      .error (.error "Installation distribution is missing.") :=
  ⟨(c7_amended_required_parameter_guards.1
      ⟨jsStr "test", jsStr "test", jsStr "http://localhost:8080"⟩
      [jsUndefined, jsStr "newName"] rfl).2.2.1,
   (c7_amended_required_parameter_guards.2.1
      ⟨jsStr "test", jsStr "test", jsStr "http://localhost:8080"⟩
      (jsStr "123.123.123.123") [] (by simp [jsStr, jsUndefined])).1,
   c7_amended_required_parameter_guards.2.2
      ⟨jsStr "test", jsStr "test", jsStr "http://localhost:8080"⟩
      (jsStr "123.123.123.123") [] [] (by simp [jsStr, jsUndefined]) rfl⟩

/-- A response with a status other than 200 and 201 never resolves. -/
theorem parseResponse_not_success (body : JsDeepValue) (st : Int)
    (hst : ¬(st = 200 ∨ st = 201)) :
    (parseResponse body st).isSuccess = false := by
  rw [parseResponse, if_neg hst]
  split <;> rfl

/-- C8: a settled pending result is a success exactly when it came from
an HTTP response with status 200 or 201; every other response status is
rejected with the formatted error envelope when the envelope is usable
and with the raw response otherwise, and a transport-level error event
rejects the result as well. -/
theorem c8_success_iff_status (t : TransportOutcome) :
    ((settle t).isSuccess = true ↔
      ∃ body st, t = .response body st ∧ (st = 200 ∨ st = 201)) ∧
    (∀ (body : JsDeepValue) (st : Int), ¬(st = 200 ∨ st = 201) →
      settle (.response body st) =
        if envelopeAvailable body then
          .rejectedMsg (((body.getField "error").getField "code").toJsString ++ ": " ++
            ((body.getField "error").getField "message").toJsString)
        else .rejectedRaw body) ∧
    (∀ e, settle (.transportError e) = .rejectedTransport e) := by
  refine ⟨?_, ?_, fun e => rfl⟩
  · cases t with
    | response body st =>
        by_cases hst : st = 200 ∨ st = 201
        · rw [show settle (.response body st) = parseResponse body st from rfl,
            parseResponse, if_pos hst]
          simp only [ParseOutcome.isSuccess, true_iff]
          exact ⟨body, st, rfl, hst⟩
        · rw [show settle (.response body st) = parseResponse body st from rfl]
          rw [parseResponse_not_success body st hst]
          simp only [Bool.false_eq_true, false_iff]
          rintro ⟨body2, st2, heq, hok⟩
          injection heq with h1 h2
          subst h2
          exact hst hok
    | transportError e =>
        simp only [settle, ParseOutcome.isSuccess, Bool.false_eq_true, false_iff]
        rintro ⟨body2, st2, heq, -⟩
        cases heq
  · intro body st hst
    rw [show settle (.response body st) = parseResponse body st from rfl,
      parseResponse, if_neg hst]
    rcases hge : body.getField "error" with p | xs | fields
    · cases p <;> simp [envelopeAvailable, hge]
    · simp [envelopeAvailable, hge]
    · simp [envelopeAvailable, hge]

/-- Witness for C8: a 404 response with the mock-server error envelope
rejects with the formatted code and message, and a success test on a 200
response. -/
theorem c8_witness :
    (settle (.response (.obj [("error",
        .obj [("status", .num 404), ("code", .str "SERVER_NOT_FOUND"),
              ("message", .str "server not found")])]) 404) =
      .rejectedMsg "SERVER_NOT_FOUND: server not found") ∧
    (settle (.response (.obj [("servers", .arr [])]) 200)).isSuccess = true :=
  ⟨by
    rw [(c8_success_iff_status (.response (.obj [("error",
        .obj [("status", .num 404), ("code", .str "SERVER_NOT_FOUND"),
              ("message", .str "server not found")])]) 404)).2.1
      (.obj [("error",
        .obj [("status", .num 404), ("code", .str "SERVER_NOT_FOUND"),
              ("message", .str "server not found")])]) 404 (by decide)]
    rfl,
   by
    rw [(c8_success_iff_status (.response (.obj [("servers", .arr [])]) 200)).1]
    exact ⟨.obj [("servers", .arr [])], 200, rfl, Or.inl rfl⟩⟩

/-- C9: construction with no config object, or with a config missing the
username, or with a username present but a missing password, throws the
corresponding configuration error and yields no instance; with non-empty
credentials and no baseUrl field, construction succeeds and the instance
carries the production base URL. -/
theorem c9_constructor_validation :
    (robotNew jsUndefined = .error (.error "Missing configuration data")) ∧
    (∀ fields : List (String × JsPrim), (fields.lookup "username").isNone →
        robotNew (.obj fields) = .error (.error "Missing API username")) ∧
    (∀ (fields : List (String × JsPrim)) (u : String),
        fields.lookup "username" = some (.str u) → u.length ≠ 0 →
        (fields.lookup "password").isNone →
        robotNew (.obj fields) = .error (.error "Missing API password")) ∧
    (∀ u p : String, u.length ≠ 0 → p.length ≠ 0 →
        robotNew (.obj [("username", .str u), ("password", .str p)]) =
          .ok ⟨jsStr u, jsStr p, jsStr productionUrl⟩) := by
  refine ⟨rfl, ?_, ?_, ?_⟩
  · intro fields h
    have h2 : fields.lookup "username" = none := by simpa using h
    simp [robotNew, JsValue.hasOwnProp, h2, jsUndefined]
  · intro fields u hu hulen hp
    have hp2 : fields.lookup "password" = none := by simpa using hp
    simp [robotNew, JsValue.hasOwnProp, JsValue.getField, hu, hp2, jsUndefined,
      credentialLengthZero, JsValue.lengthProp, beq_eq_false_iff_ne.mpr hulen]
  · intro u p hu hp
    simp [robotNew, JsValue.hasOwnProp, JsValue.getField, jsUndefined, jsStr,
      credentialLengthZero, JsValue.lengthProp, List.lookup,
      beq_eq_false_iff_ne.mpr hu, beq_eq_false_iff_ne.mpr hp, productionUrl]

/-- Witness for C9: the concrete configurations of the test suite —
empty config, username only, and username with password. -/
theorem c9_witness :
    robotNew (.obj []) = .error (.error "Missing API username") ∧
    robotNew (.obj [("username", .str "foo")]) =
      .error (.error "Missing API password") ∧
    robotNew (.obj [("username", .str "foo"), ("password", .str "bar")]) =
      .ok ⟨jsStr "foo", jsStr "bar", jsStr productionUrl⟩ :=
  ⟨c9_constructor_validation.2.1 [] (by decide),
   c9_constructor_validation.2.2.1 [("username", .str "foo")] "foo" rfl
     (by decide) (by decide),
   c9_constructor_validation.2.2.2 "foo" "bar" (by decide) (by decide)⟩
